import Mathlib

/-!
Verification of the vonex voicemail webhook service.

Shallow embedding of the core modules:
- `src/ncco_builder.py` (call-control instruction construction),
- `src/models.py` (CallLog / Recording data model),
- `src/storage.py` (SQLiteStorage, modelled as in-memory row lists with
  INSERT OR REPLACE and WHERE-clause semantics),
- `src/recording_manager.py` (RecordingManager.save_recording and
  download_recording, with the external HTTP download modelled as an
  environment outcome and an explicit event trace recording operation order),
- `src/app.py` (WebhookHandler.handle_answer / handle_recording /
  handle_event and the recording webhook endpoint),
- `src/music_generator.py` (the retry loop of generate_music and
  _format_lyrics).

External effects (clock readings, uuid4 draws, the HTTP download outcome,
ISO-8601 timestamp parsing by `datetime.fromisoformat`) are passed in
explicitly as environment values, so every definition is executable.
-/

/-! ## Definitions -/

/-- Abstract time instants standing for `datetime` values; only identity and
ordering of instants matter to the verified claims, never calendar layout. -/
abbrev Time := Nat

/-- Fragment of Python/JSON runtime values that the webhook payloads range
over in the modelled behaviours: strings, integers and `None`/`null`.
(Floats, booleans and nested containers are not exercised by any claim.) -/
inductive JVal where
  | s (v : String)
  | i (v : Int)
  | null
deriving DecidableEq, Repr

/-- Python truthiness on the modelled value fragment: `""`, `0` and `None`
are falsy, everything else truthy. -/
def JVal.truthy : JVal → Bool
  | .s v => v ≠ ""
  | .i v => v ≠ 0
  | .null => false

/-- Python exception kinds raised by the modelled code paths. -/
inductive PyErr where
  | valueError (msg : String)
  | typeError (msg : String)
deriving DecidableEq, Repr

/-- The whitespace characters Python `str.strip` removes (the ASCII ones;
exotic unicode whitespace is not exercised by any claim). -/
def isSpaceChar (c : Char) : Bool :=
  c = ' ' || c = '\t' || c = '\n' || c = '\r'

/-- Python `str.strip()`: drop leading and trailing whitespace. -/
def trimChars (cs : List Char) : List Char :=
  ((cs.dropWhile isSpaceChar).reverse.dropWhile isSpaceChar).reverse

/-- Python `str.strip()` on strings. -/
def pyStrip (s : String) : String :=
  String.mk (trimChars s.data)

/-- Python `str.split(sep)` for a one-character separator: consecutive
separators and boundary separators produce empty pieces, exactly as in
Python (`"a。。".split("。") == ["a", "", ""]`). -/
def splitOnChar (sep : Char) : List Char → List (List Char)
  | [] => [[]]
  | c :: cs =>
    match splitOnChar sep cs with
    | [] => [[]]
    | r :: rs => if c = sep then [] :: r :: rs else (c :: r) :: rs

/-- All-digit run parsed as a decimal numeral. -/
def parseDigitsAux : List Char → Nat → Option Nat
  | [], acc => some acc
  | c :: cs, acc =>
    if c.isDigit then parseDigitsAux cs (acc * 10 + (c.toNat - 48)) else none

/-- A non-empty all-digit run parsed as a decimal numeral. -/
def parseDigits : List Char → Option Nat
  | [] => none
  | c :: cs => parseDigitsAux (c :: cs) 0

/-- Python `int(s)` on a string: strip whitespace, optional sign, then a
non-empty digit run; anything else raises ValueError.  (CPython also
accepts underscore digit separators; not modelled, no claim exercises
them.) -/
def pyIntOfString (s : String) : Option Int :=
  match trimChars s.data with
  | '-' :: rest => (parseDigits rest).map (fun n => -(n : Int))
  | '+' :: rest => (parseDigits rest).map (fun n => (n : Int))
  | cs => (parseDigits cs).map (fun n => (n : Int))

/-- Python `int(x)` on the modelled fragment: an int passes through, a string
is parsed as a decimal integer literal (a non-numeric string such as "abc"
raises ValueError, exactly as in CPython), and `None` raises TypeError.
CPython additionally strips whitespace and allows underscores in numeric
strings; that extra parse surface is not modelled since no claim exercises
it and it does not affect which claims hold. -/
def pyInt : JVal → Except PyErr Int
  | .i n => .ok n
  | .s v =>
    match pyIntOfString v with
    | some n => .ok n
    | none => .error (.valueError "invalid literal for int() with base 10")
  | .null => .error (.typeError "int() argument must be a string or a number, not NoneType")

/-- A JSON-object webhook body: association list of fields. -/
abbrev Payload := List (String × JVal)

/-- Python `data.get(key, default)` on a dict. -/
def pget (data : Payload) (key : String) (default : JVal) : JVal :=
  match data.lookup key with
  | some v => v
  | none => default

/-- `params.get(key, "")` for the answer webhook's query parameters, which
are always strings. -/
def sget (params : List (String × String)) (key : String) : String :=
  (params.lookup key).getD ""

/-- `CallLog` dataclass from `src/models.py`.  `call_uuid` and `status` hold
whatever runtime value the webhook supplied (strings via the answer webhook,
arbitrary JSON values via a POSTed event webhook). -/
structure CallLog where
  id : String
  call_uuid : JVal
  caller_number : String
  called_number : String
  status : JVal
  direction : String
  started_at : Time
  ended_at : Option Time
  created_at : Time
deriving DecidableEq, Repr

/-- `Recording` dataclass from `src/models.py`. -/
structure Recording where
  id : String
  call_uuid : JVal
  conversation_uuid : JVal
  caller_number : String
  called_number : String
  recording_url : JVal
  recording_uuid : JVal
  duration : Int
  file_size : Int
  format : String
  status : String
  local_file_path : Option String
  created_at : Time
  updated_at : Time
deriving DecidableEq, Repr

/-- `RecordingMetadata` dataclass from `src/recording_manager.py`. -/
structure RecordingMetadata where
  id : String
  call_uuid : JVal
  caller_number : String
  recording_url : JVal
  duration : Int
  timestamp : Time
  status : String
  local_file_path : Option String
deriving DecidableEq, Repr

structure DB where
  recordings : List Recording
  call_logs : List CallLog
deriving DecidableEq, Repr

/-- `SQLiteStorage.save_recording`: `INSERT OR REPLACE` keyed by `id`. -/
def db_save_recording (db : DB) (r : Recording) : DB :=
  { db with recordings := db.recordings.filter (fun x => x.id ≠ r.id) ++ [r] }

/-- `SQLiteStorage.save_call_log`: `INSERT OR REPLACE` keyed by `id`. -/
def db_save_call_log (db : DB) (l : CallLog) : DB :=
  { db with call_logs := db.call_logs.filter (fun x => x.id ≠ l.id) ++ [l] }

/-- `SQLiteStorage.get_call_log`: first row whose `call_uuid` matches. -/
def get_call_log (db : DB) (call_uuid : JVal) : Option CallLog :=
  db.call_logs.find? (fun l => l.call_uuid = call_uuid)

/-- `SQLiteStorage.get_recording`: first row whose `call_uuid` matches. -/
def get_recording (db : DB) (call_uuid : JVal) : Option Recording :=
  db.recordings.find? (fun r => r.call_uuid = call_uuid)

/-- `SQLiteStorage.update_call_log_status`: first checks existence via
`get_call_log`, returning `false` without touching anything when no row
matches; otherwise runs `UPDATE call_logs SET status = ?, ended_at = ?
WHERE call_uuid = ?` (every matching row is updated) and returns
`rowcount > 0`, which is `true` since a match exists. -/
def update_call_log_status (db : DB) (call_uuid status : JVal)
    (ended_at : Option Time) : Bool × DB :=
  match get_call_log db call_uuid with
  | none => (false, db)
  | some _ =>
    (true,
      { db with
        call_logs := db.call_logs.map (fun l =>
          if l.call_uuid = call_uuid then
            { l with status := status, ended_at := ended_at }
          else l) })

/-- The configuration fields `NCCOBuilder` reads (`src/config.py`). -/
structure Config where
  greeting_message : String
  greeting_language : String
  greeting_style : Int
  max_recording_duration : Int
  recording_format : String
  end_on_silence : Int
  recording_url : String
deriving DecidableEq, Repr

/-- NCCO actions as produced by `TalkAction.to_dict` / `RecordAction.to_dict`
in `src/ncco_builder.py`; each constructor carries exactly the dict's
fields in source order. -/
inductive NccoAction where
  | talk (text language : String) (style : Int) (bargeIn : Bool)
  | record (eventUrl : List String) (endOnSilence : Int) (endOnKey : String)
      (beepStart : Bool) (timeOut : Int) (format : String)
deriving DecidableEq, Repr

/-- `NCCOBuilder._build_talk_action`: greeting from configuration with
`bargeIn=False` hard-coded. -/
def build_talk_action (cfg : Config) : NccoAction :=
  .talk cfg.greeting_message cfg.greeting_language cfg.greeting_style false

/-- `NCCOBuilder._build_record_action`: recording settings from
configuration with `endOnKey="#"` and `beepStart=True` hard-coded and a
single-element `eventUrl`. -/
def build_record_action (cfg : Config) : NccoAction :=
  .record [cfg.recording_url] cfg.end_on_silence "#" true
    cfg.max_recording_duration cfg.recording_format

/-- `NCCOBuilder.build_voicemail_ncco`: the talk action followed by the
record action; the `call_uuid` argument is accepted but unused, as in the
source. -/
def build_voicemail_ncco (cfg : Config) (_call_uuid : String) : List NccoAction :=
  [build_talk_action cfg, build_record_action cfg]

/-- Number of entries in an action's `eventUrl` list (a talk action has
none). -/
def nccoEventUrlCount : NccoAction → Nat
  | .talk _ _ _ _ => 0
  | .record urls _ _ _ _ _ => urls.length

def parseTs (isoParse : String → Option Time) (v : JVal) (now : Time) : Time :=
  match v with
  | .s str =>
    if str = "" then now
    else
      match isoParse (str.replace "Z" "+00:00") with
      | some t => t
      | none => now
  | .i _ => now
  | .null => now

/-- Observable side effects of the recording path, in execution order. -/
inductive Event where
  | downloadAttempt (recordingId : String)
  | saveRecording (r : Recording)
  | spawnEnrichment (path caller recordingId : String)
deriving DecidableEq, Repr

/-- Environment of external outcomes for one pass through the recording
path: clock readings, the uuid4 draws, the `fromisoformat` parser, and
whether the authenticated HTTP download of the audio succeeds. -/
structure RecEnv where
  now : Time
  isoParse : String → Option Time
  freshMetaId : String
  freshConvUuid : String
  freshRecUuid : String
  downloadOk : Bool

/-- `RecordingManager.download_recording`: returns `None` at once for a
falsy URL; otherwise performs the authenticated fetch (the emitted
`downloadAttempt` event) and returns
`os.path.join(recordings_dir, f"{recording_id}.{format}")` on success or
`None` when the request or the file write fails. -/
def download_recording (env : RecEnv) (recordings_dir : String)
    (recording_url : JVal) (recording_id fmt : String) :
    Option String × List Event :=
  if recording_url.truthy then
    if env.downloadOk then
      (some (recordings_dir ++ "/" ++ recording_id ++ "." ++ fmt),
        [.downloadAttempt recording_id])
    else (none, [.downloadAttempt recording_id])
  else (none, [])

/-- `RecordingManager.save_recording`: attempts the audio download first
(when `download_file` is set and the URL is truthy), then builds the full
`Recording` — substituting a fresh uuid4 for a falsy `conversation_uuid` or
`recording_uuid` and empty-string/zero defaults for the other optionals —
and finally persists it through `Storage.save_recording`. -/
def rm_save_recording (env : RecEnv) (recordings_dir : String)
    (metadata : RecordingMetadata) (conversation_uuid : Option JVal)
    (called_number : Option String) (recording_uuid : Option JVal)
    (file_size : Option Int) (fmt : String) (download_file : Bool)
    (db : DB) : DB × List Event :=
  let dl :=
    if download_file && metadata.recording_url.truthy then
      download_recording env recordings_dir metadata.recording_url metadata.id fmt
    else (none, [])
  let recording : Recording :=
    { id := metadata.id
      call_uuid := metadata.call_uuid
      conversation_uuid :=
        match conversation_uuid with
        | some v => if v.truthy then v else .s env.freshConvUuid
        | none => .s env.freshConvUuid
      caller_number := metadata.caller_number
      called_number := called_number.getD ""
      recording_url := metadata.recording_url
      recording_uuid :=
        match recording_uuid with
        | some v => if v.truthy then v else .s env.freshRecUuid
        | none => .s env.freshRecUuid
      duration := metadata.duration
      file_size := file_size.getD 0
      format := fmt
      status := metadata.status
      local_file_path := dl.1
      created_at := metadata.timestamp
      updated_at := env.now }
  (db_save_recording db recording, dl.2 ++ [.saveRecording recording])

/-- `WebhookHandler.handle_answer`: extracts the query parameters with
empty-string defaults, persists a brand-new `CallLog` with a fresh uuid4
`id`, status `"answered"` and `ended_at = None`, and returns the NCCO from
the builder. -/
def handle_answer (cfg : Config) (now : Time) (freshId : String)
    (db : DB) (params : List (String × String)) : List NccoAction × DB :=
  let call_uuid := sget params "uuid"
  let caller_number := sget params "from"
  let called_number := sget params "to"
  let call_log : CallLog :=
    { id := freshId
      call_uuid := .s call_uuid
      caller_number := caller_number
      called_number := called_number
      status := .s "answered"
      direction := "inbound"
      started_at := now
      ended_at := none
      created_at := now }
  (build_voicemail_ncco cfg call_uuid, db_save_call_log db call_log)

/-- The terminal status vocabulary from `WebhookHandler.handle_event`. -/
def terminal_statuses : List String :=
  ["completed", "failed", "rejected", "busy", "cancelled", "timeout", "unanswered"]

/-- Python `status in terminal_statuses`: only a string can compare equal to
the string literals in the list. -/
def isTerminal : JVal → Bool
  | .s v => terminal_statuses.contains v
  | _ => false

/-- `WebhookHandler.handle_event`: parses the timestamp leniently, computes
`ended_at` from terminal-set membership, and — when the uuid is truthy —
updates the matching call log rows, returning the update flag alongside the
new state.  No path raises. -/
def handle_event (now : Time) (isoParse : String → Option Time)
    (db : DB) (data : Payload) : DB × Bool :=
  let call_uuid := pget data "uuid" (.s "")
  let status := pget data "status" (.s "")
  let timestamp_str := pget data "timestamp" (.s "")
  let event_timestamp := parseTs isoParse timestamp_str now
  let ended_at := if isTerminal status then some event_timestamp else none
  if call_uuid.truthy then
    let r := update_call_log_status db call_uuid status ended_at
    (r.2, r.1)
  else (db, false)

/-- `WebhookHandler.handle_recording`: extracts the payload fields with
permissive defaults, converts `duration` and then `size` with Python
`int()` (each only when truthy — these conversions are the only failing
operations on this path and their exceptions propagate out), builds the
`RecordingMetadata` keyed by `conversation_uuid`, delegates to
`RecordingManager.save_recording` (downloads enabled, format "mp3"), and
finally — when a music generator is configured — resolves the caller from
the stored call log and spawns the detached enrichment thread when the
caller string and the *constructed* local path are both truthy.  The path
`recordings_dir + "/" + metadata.id + ".mp3"` is built unconditionally and
never consults the download outcome. -/
def handle_recording (env : RecEnv) (musicGenEnabled : Bool)
    (recordings_dir : String) (db : DB) (data : Payload) :
    Except PyErr (DB × List Event) :=
  let recording_url := pget data "recording_url" (.s "")
  let recording_uuid_value := pget data "recording_uuid" (.s "")
  let conversation_uuid := pget data "conversation_uuid" (.s "")
  let start_time := pget data "start_time" (.s "")
  let file_size := pget data "size" (.i 0)
  let duration := pget data "duration" (.i 0)
  let call_uuid := conversation_uuid
  let timestamp := parseTs env.isoParse start_time env.now
  match (if duration.truthy then pyInt duration else .ok 0 : Except PyErr Int) with
  | .error e => .error e
  | .ok durationInt =>
    let metadata : RecordingMetadata :=
      { id := env.freshMetaId
        call_uuid := call_uuid
        caller_number := ""
        recording_url := recording_url
        duration := durationInt
        timestamp := timestamp
        status := "completed"
        local_file_path := none }
    match (if file_size.truthy then pyInt file_size else .ok 0 : Except PyErr Int) with
    | .error e => .error e
    | .ok fileSizeInt =>
      let res := rm_save_recording env recordings_dir metadata
        (some conversation_uuid) none (some recording_uuid_value)
        (some fileSizeInt) "mp3" true db
      let enrichment :=
        if musicGenEnabled then
          let caller_number :=
            match get_call_log res.1 call_uuid with
            | some call_log => call_log.caller_number
            | none => ""
          let local_file_path := recordings_dir ++ "/" ++ metadata.id ++ ".mp3"
          if caller_number ≠ "" && local_file_path ≠ "" then
            [Event.spawnEnrichment local_file_path caller_number metadata.id]
          else []
        else []
      .ok (res.1, res.2 ++ enrichment)

/-- The `/webhooks/recording` endpoint (`recording_webhook` in
`src/app.py`): a malformed or non-object body (modelled as `none`) raises
`WebhookValidationError`, answered with 400; an object body is handed to
`handle_recording`, whose normal return is acknowledged with
`200 {"status":"ok"}` and whose exceptions are re-raised into the generic
handler, answered with 500. -/
def recording_webhook (env : RecEnv) (musicGenEnabled : Bool)
    (recordings_dir : String) (db : DB) (body : Option Payload) : Nat × DB :=
  match body with
  | none => (400, db)
  | some data =>
    match handle_recording env musicGenEnabled recordings_dir db data with
    | .ok res => (200, res.1)
    | .error _ => (500, db)

/-- Outcome of one `requests.post` to the generation API: either the
request itself raises `requests.RequestException`, or a response arrives
with an HTTP status, a JSON `code` field and an optional task id (the
resolved `workId or data.task_id`).  Responses whose bodies fail to parse
as JSON are outside the model (that ValueError is not exercised by the
claim). -/
inductive Attempt where
  | netError
  | resp (status : Nat) (code : Int) (workId : Option String)
deriving DecidableEq, Repr

/-- Result of `generate_music`: the task id, or the message of the raised
`MusicGeneratorError`. -/
inductive GenResult where
  | ok (workId : String)
  | err (msg : String)
deriving DecidableEq, Repr

def GenResult.isErr : GenResult → Bool
  | .ok _ => false
  | .err _ => true

/-- The retry loop of `MusicGenerator.generate_music`, driven by the list
of per-attempt API outcomes (one entry per loop iteration, so the list
length is `max_retries`; the default call has three).  A 429 response
retries while attempts remain and raises on the last one; any other ≥400
status reaches `response.raise_for_status()`, whose `HTTPError` is caught
by the `except requests.RequestException` clause and retried exactly like a
network error; a parsed 2xx response with `code != 200` or without a task
id raises `MusicGeneratorError` immediately, aborting the loop.  The empty
list is the fall-through raise after the loop. -/
def generate_music_loop : List Attempt → GenResult
  | [] => .err "max retries reached"
  | a :: rest =>
    match a with
    | .netError =>
      if rest.isEmpty then .err "music generation request failed"
      else generate_music_loop rest
    | .resp status code workId =>
      if status = 429 then
        if rest.isEmpty then .err "rate limited"
        else generate_music_loop rest
      else if 400 ≤ status then
        if rest.isEmpty then .err "music generation request failed"
        else generate_music_loop rest
      else if code ≠ 200 then .err "api error"
      else
        match workId with
        | some w => .ok w
        | none => .err "no task id"

/-- `MusicGenerator.generate_music`: raises on empty (all-whitespace)
lyrics before any request, otherwise formats the lyrics and enters the
retry loop. -/
def generate_music (lyrics : String) (attempts : List Attempt) : GenResult :=
  if lyrics = "" || pyStrip lyrics = "" then .err "lyrics empty"
  else generate_music_loop attempts

/-- The source default `max_retries` of `generate_music`. -/
def default_max_retries : Nat := 3

/-- The source default `retry_delay` (seconds) of `generate_music`. -/
def default_retry_delay : Nat := 10

/-- The sentence list `_format_lyrics` computes: strip the text, split on
`"。"`, strip each piece and drop empty pieces. -/
def sentencesOf (text : String) : List String :=
  (((splitOnChar '。' (trimChars text.data)).map
    (fun cs => String.mk (trimChars cs))).filter (fun l => l ≠ ""))

/-- `MusicGenerator._format_lyrics`: with at most two sentences the whole
original text becomes one verse block; otherwise the sentence list is split
at `mid = len(lines) // 2` into a verse (first `mid` sentences) and a
chorus (the rest), joined with newlines. -/
def format_lyrics (text : String) : String :=
  let lines := sentencesOf text
  if lines.length ≤ 2 then "[Verse]\n" ++ text
  else
    let mid := lines.length / 2
    "[Verse]\n" ++ String.intercalate "\n" (lines.take mid) ++
      "\n\n[Chorus]\n" ++ String.intercalate "\n" (lines.drop mid)

/-- Spec-side comparator for claim C6, following the spec's words: a text
with more than two sentences splits into a verse block of the first
`⌈n/2⌉` sentences and a chorus block of the remaining `⌊n/2⌋`. -/
def format_lyrics_claimed (text : String) : String :=
  let lines := sentencesOf text
  if lines.length ≤ 2 then "[Verse]\n" ++ text
  else
    let mid := (lines.length + 1) / 2
    "[Verse]\n" ++ String.intercalate "\n" (lines.take mid) ++
      "\n\n[Chorus]\n" ++ String.intercalate "\n" (lines.drop mid)

/-- Attempt outcomes that are failures other than an HTTP 429 response:
request exceptions, non-429 HTTP error statuses, and API-level failures
inside a 2xx response.  The claim asserts none of these is ever retried. -/
def isNon429Failure : Attempt → Bool
  | .netError => true
  | .resp status code workId =>
    if status = 429 then false
    else if 400 ≤ status then true
    else if code ≠ 200 then true
    else workId.isNone

/-- A sample stored call log used to instantiate hypotheses at concrete
states. -/
def sampleLog : CallLog :=
  { id := "log-1"
    call_uuid := .s "u1"
    caller_number := "+819011112222"
    called_number := "+813033334444"
    status := .s "answered"
    direction := "inbound"
    started_at := 100
    ended_at := none
    created_at := 100 }

/-- The primary keys of the stored call logs. -/
def logIds (db : DB) : List String := db.call_logs.map CallLog.id

/-- Number of stored call-log rows for a given `call_uuid` string. -/
def countLogsFor (db : DB) (u : String) : Nat :=
  (db.call_logs.filter (fun l => l.call_uuid = JVal.s u)).length

/-- The `CallLog` that `handle_answer` builds from its query parameters. -/
def answer_log (now : Time) (freshId : String)
    (params : List (String × String)) : CallLog :=
  { id := freshId
    call_uuid := .s (sget params "uuid")
    caller_number := sget params "from"
    called_number := sget params "to"
    status := .s "answered"
    direction := "inbound"
    started_at := now
    ended_at := none
    created_at := now }

/-- Repeated invocation of `handle_answer` with one fresh uuid4 per call. -/
def answer_many (cfg : Config) (now : Time) (params : List (String × String))
    (ids : List String) (db : DB) : DB :=
  ids.foldl (fun d i => (handle_answer cfg now i d params).2) db

/-- Sample configuration used to instantiate handler theorems. -/
def cfg0 : Config :=
  { greeting_message := "hello"
    greeting_language := "ja-JP"
    greeting_style := 0
    max_recording_duration := 60
    recording_format := "mp3"
    end_on_silence := 3
    recording_url := "https://example.com/webhooks/recording" }

/-- The claimed row invariant: `ended_at` set exactly for terminal
statuses. -/
def callLogInv (l : CallLog) : Prop :=
  l.ended_at.isSome = isTerminal l.status

/-- Every stored call-log row satisfies the invariant. -/
def dbInv (db : DB) : Prop :=
  ∀ l ∈ db.call_logs, callLogInv l

/-- One webhook-handler transition of the stored state: an answer webhook
(any parameters, clock and fresh id) or an event webhook (any payload,
clock and timestamp parser). -/
inductive WebhookStep : DB → DB → Prop
  | answer (cfg : Config) (now : Time) (freshId : String)
      (params : List (String × String)) (db : DB) :
      WebhookStep db (handle_answer cfg now freshId db params).2
  | event (now : Time) (isoParse : String → Option Time) (data : Payload)
      (db : DB) :
      WebhookStep db (handle_event now isoParse db data).1

/-- States reachable from fresh tables through `handle_answer` and
`handle_event`. -/
def ReachableDB (db : DB) : Prop :=
  Relation.ReflTransGen WebhookStep ⟨[], []⟩ db

def exceptOk {ε α : Type} : Except ε α → Bool
  | .ok _ => true
  | .error _ => false

/-- Whether `int(v) if v else 0` (the conversion `handle_recording` applies
to `duration` and `size`) completes without raising. -/
def pyIntSafe (v : JVal) : Bool :=
  if v.truthy then exceptOk (pyInt v) else true

/-- The value `int(v) if v else 0` produces when it does not raise. -/
def pyIntOr0 (v : JVal) : Int :=
  match (if v.truthy then pyInt v else Except.ok 0) with
  | .ok n => n
  | .error _ => 0

def isSaveRec : Event → Bool
  | .saveRecording _ => true
  | _ => false

def isDownload : Event → Bool
  | .downloadAttempt _ => true
  | _ => false

def isSpawn : Event → Bool
  | .spawnEnrichment _ _ _ => true
  | _ => false

/-- The recordings passed to `Storage.save_recording` along a trace. -/
def savedRecs (tr : List Event) : List Recording :=
  tr.filterMap (fun e =>
    match e with
    | .saveRecording r => some r
    | _ => none)

/-- Claim C2's ordering property as a predicate on traces: whenever both a
storage save and a download attempt occur, the save comes strictly first. -/
def savedBeforeDownload (tr : List Event) : Bool :=
  match tr.findIdx? isSaveRec, tr.findIdx? isDownload with
  | some i, some j => decide (i < j)
  | _, _ => true

/-- The `Recording` object `RecordingManager.save_recording` constructs and
persists, as a function of its inputs. -/
def rm_recording (env : RecEnv) (recordings_dir : String)
    (md : RecordingMetadata) (conversation_uuid : Option JVal)
    (called_number : Option String) (recording_uuid : Option JVal)
    (file_size : Option Int) (fmt : String) (download_file : Bool) :
    Recording :=
  { id := md.id
    call_uuid := md.call_uuid
    conversation_uuid :=
      match conversation_uuid with
      | some v => if v.truthy then v else .s env.freshConvUuid
      | none => .s env.freshConvUuid
    caller_number := md.caller_number
    called_number := called_number.getD ""
    recording_url := md.recording_url
    recording_uuid :=
      match recording_uuid with
      | some v => if v.truthy then v else .s env.freshRecUuid
      | none => .s env.freshRecUuid
    duration := md.duration
    file_size := file_size.getD 0
    format := fmt
    status := md.status
    local_file_path :=
      if download_file && md.recording_url.truthy && env.downloadOk then
        some (recordings_dir ++ "/" ++ md.id ++ "." ++ fmt)
      else none
    created_at := md.timestamp
    updated_at := env.now }

/-- What `handle_recording` computes once both `int()` conversions have
succeeded with the given values. -/
def handle_recording_body (env : RecEnv) (musicGenEnabled : Bool)
    (recordings_dir : String) (db : DB) (data : Payload)
    (durationInt fileSizeInt : Int) : DB × List Event :=
  let conversation_uuid := pget data "conversation_uuid" (.s "")
  let timestamp := parseTs env.isoParse (pget data "start_time" (.s "")) env.now
  let metadata : RecordingMetadata :=
    { id := env.freshMetaId
      call_uuid := conversation_uuid
      caller_number := ""
      recording_url := pget data "recording_url" (.s "")
      duration := durationInt
      timestamp := timestamp
      status := "completed"
      local_file_path := none }
  let res := rm_save_recording env recordings_dir metadata
    (some conversation_uuid) none (some (pget data "recording_uuid" (.s "")))
    (some fileSizeInt) "mp3" true db
  let enrichment :=
    if musicGenEnabled then
      let caller_number :=
        match get_call_log res.1 conversation_uuid with
        | some call_log => call_log.caller_number
        | none => ""
      let local_file_path := recordings_dir ++ "/" ++ metadata.id ++ ".mp3"
      if caller_number ≠ "" && local_file_path ≠ "" then
        [Event.spawnEnrichment local_file_path caller_number metadata.id]
      else []
    else []
  (res.1, res.2 ++ enrichment)

/-- Fixtures used to instantiate the recording-path claims. -/
def env0 : RecEnv :=
  { now := 20
    isoParse := fun _ => none
    freshMetaId := "rid-1"
    freshConvUuid := "conv-fresh"
    freshRecUuid := "rec-fresh"
    downloadOk := true }

def env_dlfail : RecEnv := { env0 with downloadOk := false }

def md0 : RecordingMetadata :=
  { id := "rid-1"
    call_uuid := .s "c1"
    caller_number := ""
    recording_url := .s "https://api.nexmo.com/v1/files/f1"
    duration := 42
    timestamp := 10
    status := "completed"
    local_file_path := none }

def db5 : DB := ⟨[], [sampleLog]⟩

def payload5 : Payload :=
  [("conversation_uuid", JVal.s "u1"),
   ("recording_url", JVal.s "https://api.nexmo.com/v1/files/f1"),
   ("duration", JVal.i 7)]

def payload10 : Payload := [("duration", JVal.i 5)]

instance {ε α : Type} [DecidableEq ε] [DecidableEq α] :
    DecidableEq (Except ε α) := fun a b =>
  match a, b with
  | .ok x, .ok y =>
    if h : x = y then .isTrue (by rw [h]) else .isFalse (by simp [h])
  | .error x, .error y =>
    if h : x = y then .isTrue (by rw [h]) else .isFalse (by simp [h])
  | .ok _, .error _ => .isFalse (by simp)
  | .error _, .ok _ => .isFalse (by simp)

/-! ## Theorems -/

/-- Claim C3: for every configuration and call identifier,
`build_voicemail_ncco` returns exactly two instructions in the fixed order
[talk, record], the talk instruction has `bargeIn = false`, and the record
instruction has `beepStart = true`, `endOnKey = "#"` and a single-element
`eventUrl` list. -/
theorem build_voicemail_ncco_shape (cfg : Config) (call_uuid : String) :
    (build_voicemail_ncco cfg call_uuid).length = 2 ∧
    (build_voicemail_ncco cfg call_uuid)[0]? =
      some (NccoAction.talk cfg.greeting_message cfg.greeting_language
        cfg.greeting_style false) ∧
    (build_voicemail_ncco cfg call_uuid)[1]? =
      some (NccoAction.record [cfg.recording_url] cfg.end_on_silence "#" true
        cfg.max_recording_duration cfg.recording_format) ∧
    (build_voicemail_ncco cfg call_uuid).map nccoEventUrlCount = [0, 1] :=
  ⟨rfl, rfl, rfl, rfl⟩

/-- Claim C6 counterexample: a three-sentence text puts only one sentence
(`⌊3/2⌋ = 1`) in the verse and two in the chorus, while the claim wants the
verse to hold the first `⌈3/2⌉ = 2` sentences. -/
theorem format_lyrics_midpoint_counterexample :
    (sentencesOf "one。two。three。").length = 3 ∧
    format_lyrics "one。two。three。" = "[Verse]\none\n\n[Chorus]\ntwo\nthree" ∧
    format_lyrics "one。two。three。" ≠ format_lyrics_claimed "one。two。three。" := by
  refine ⟨by decide, by decide, by decide⟩

/-- Claim C6 (amended): at most two sentences yield a single verse block
wrapping the whole text; with `n > 2` sentences the verse block holds the
first `⌊n/2⌋` sentences and the chorus block the remaining `⌈n/2⌉` — the
floor and ceiling are the reverse of the claimed sizes. -/
theorem format_lyrics_split (text : String) :
    ((sentencesOf text).length ≤ 2 →
      format_lyrics text = "[Verse]\n" ++ text) ∧
    (2 < (sentencesOf text).length →
      format_lyrics text =
        "[Verse]\n" ++
          String.intercalate "\n"
            ((sentencesOf text).take ((sentencesOf text).length / 2)) ++
        "\n\n[Chorus]\n" ++
          String.intercalate "\n"
            ((sentencesOf text).drop ((sentencesOf text).length / 2)) ∧
      ((sentencesOf text).take ((sentencesOf text).length / 2)).length
        = (sentencesOf text).length / 2 ∧
      ((sentencesOf text).drop ((sentencesOf text).length / 2)).length
        = ((sentencesOf text).length + 1) / 2) := by
  constructor
  · intro h
    simp [format_lyrics, h]
  · intro h
    have h2 : ¬ (sentencesOf text).length ≤ 2 := by omega
    refine ⟨by simp [format_lyrics, h2], ?_, ?_⟩
    · rw [List.length_take]
      omega
    · rw [List.length_drop]
      omega

/-- Witness for C6 at the three-sentence text, discharging the
sentence-count hypothesis. -/
theorem format_lyrics_split_witness :
    format_lyrics "one。two。three。" =
      "[Verse]\n" ++
        String.intercalate "\n"
          ((sentencesOf "one。two。three。").take
            ((sentencesOf "one。two。three。").length / 2)) ++
      "\n\n[Chorus]\n" ++
        String.intercalate "\n"
          ((sentencesOf "one。two。three。").drop
            ((sentencesOf "one。two。three。").length / 2)) :=
  ((format_lyrics_split "one。two。three。").2 (by decide)).1

/-- Claim C7 counterexample: the first attempt fails with a request
exception — a non-429 failure — yet the loop proceeds to the second attempt
and succeeds, so non-rate-limit failures are not "failed immediately". -/
theorem generate_music_retry_counterexample :
    isNon429Failure Attempt.netError = true ∧
    generate_music "hello there friend"
      [Attempt.netError, Attempt.resp 200 200 (some "w1"),
        Attempt.resp 200 200 (some "w1")] = GenResult.ok "w1" := by
  refine ⟨rfl, by decide⟩

/-- Claim C7 (amended): while attempts remain, the loop retries on a
request exception and on *any* HTTP status ≥ 400 (429 included — a non-429
error status raises `HTTPError`, which the `except RequestException` clause
catches like a network error); only failures inside a parsed non-error
response — a JSON `code` other than 200 or a missing task id — abort
immediately, and a successful response returns its task id.  An exhausted
attempt list (the configured maximum, default 3) fails. -/
theorem generate_music_retry_policy (rest : List Attempt) (hrest : rest ≠ []) :
    (generate_music_loop (Attempt.netError :: rest) = generate_music_loop rest) ∧
    (∀ st code workId, 400 ≤ st →
      generate_music_loop (Attempt.resp st code workId :: rest)
        = generate_music_loop rest) ∧
    (∀ st code workId, st < 400 → code ≠ 200 →
      generate_music_loop (Attempt.resp st code workId :: rest)
        = GenResult.err "api error") ∧
    (∀ st, st < 400 →
      generate_music_loop (Attempt.resp st 200 none :: rest)
        = GenResult.err "no task id") ∧
    (∀ st w, st < 400 →
      generate_music_loop (Attempt.resp st 200 (some w) :: rest)
        = GenResult.ok w) ∧
    generate_music_loop [] = GenResult.err "max retries reached" := by
  have h0 : rest.isEmpty = false := by
    cases rest with
    | nil => exact absurd rfl hrest
    | cons x xs => rfl
  refine ⟨by simp [generate_music_loop, h0], ?_, ?_, ?_, ?_, rfl⟩
  · intro st code workId hst
    by_cases h429 : st = 429 <;>
      simp [generate_music_loop, h429, hst, h0]
  · intro st code workId hst hcode
    have h429 : st ≠ 429 := by omega
    have h400 : ¬ 400 ≤ st := by omega
    simp [generate_music_loop, h429, h400, hcode]
  · intro st hst
    have h429 : st ≠ 429 := by omega
    have h400 : ¬ 400 ≤ st := by omega
    simp [generate_music_loop, h429, h400]
  · intro st w hst
    have h429 : st ≠ 429 := by omega
    have h400 : ¬ 400 ≤ st := by omega
    simp [generate_music_loop, h429, h400]

/-- Witness for C7: a network error with one attempt remaining steps to the
remaining attempt. -/
theorem generate_music_retry_policy_witness :
    generate_music_loop [Attempt.netError, Attempt.resp 200 200 (some "w2")]
      = generate_music_loop [Attempt.resp 200 200 (some "w2")] :=
  (generate_music_retry_policy [Attempt.resp 200 200 (some "w2")] (by decide)).1

/-- Claim C8: when no stored call log matches `call_uuid`,
`update_call_log_status` returns `false` and the entire storage state —
recordings and call logs alike — is returned unchanged. -/
theorem update_call_log_status_missing (db : DB) (call_uuid status : JVal)
    (ended_at : Option Time)
    (h : ∀ l ∈ db.call_logs, l.call_uuid ≠ call_uuid) :
    update_call_log_status db call_uuid status ended_at = (false, db) := by
  have hfind : get_call_log db call_uuid = none := by
    apply List.find?_eq_none.mpr
    intro l hl
    simpa using h l hl
  simp [update_call_log_status, hfind]

/-- Witness for C8 at a one-row store whose only call log has a different
`call_uuid`. -/
theorem update_call_log_status_missing_witness :
    update_call_log_status ⟨[], [sampleLog]⟩ (.s "u-missing") (.s "completed")
      (some 200) = (false, ⟨[], [sampleLog]⟩) :=
  update_call_log_status_missing ⟨[], [sampleLog]⟩ (.s "u-missing")
    (.s "completed") (some 200) (by decide)

theorem handle_answer_snd (cfg : Config) (now : Time) (freshId : String)
    (db : DB) (params : List (String × String)) :
    (handle_answer cfg now freshId db params).2 =
      db_save_call_log db (answer_log now freshId params) := rfl

theorem db_save_call_log_fresh (db : DB) (l : CallLog)
    (h : l.id ∉ logIds db) :
    (db_save_call_log db l).call_logs = db.call_logs ++ [l] := by
  have hfilt : db.call_logs.filter (fun x => x.id ≠ l.id) = db.call_logs := by
    rw [List.filter_eq_self]
    intro x hx
    have hne : x.id ≠ l.id := by
      intro hEq
      exact h (List.mem_map.mpr ⟨x, hx, hEq⟩)
    simpa using hne
  show db.call_logs.filter (fun x => x.id ≠ l.id) ++ [l] = db.call_logs ++ [l]
  rw [hfilt]

theorem answer_many_ids_count (cfg : Config) (now : Time)
    (params : List (String × String)) :
    ∀ ids db, ids.Nodup → (∀ i ∈ ids, i ∉ logIds db) →
      logIds (answer_many cfg now params ids db) = logIds db ++ ids ∧
      countLogsFor (answer_many cfg now params ids db) (sget params "uuid")
        = countLogsFor db (sget params "uuid") + ids.length := by
  intro ids
  induction ids with
  | nil =>
    intro db _ _
    simp [answer_many]
  | cons i rest ih =>
    intro db hnodup hfresh
    have hstep :
        (handle_answer cfg now i db params).2.call_logs
          = db.call_logs ++ [answer_log now i params] := by
      rw [handle_answer_snd]
      exact db_save_call_log_fresh db _ (hfresh i (by simp))
    have hids : logIds (handle_answer cfg now i db params).2
        = logIds db ++ [i] := by
      simp [logIds, hstep, answer_log]
    have hcount : countLogsFor (handle_answer cfg now i db params).2
        (sget params "uuid")
        = countLogsFor db (sget params "uuid") + 1 := by
      simp [countLogsFor, hstep, answer_log, List.filter_append]
    have hrest_fresh : ∀ j ∈ rest, j ∉ logIds (handle_answer cfg now i db params).2 := by
      intro j hj
      rw [hids]
      simp only [List.mem_append, List.mem_singleton]
      rintro (hmem | rfl)
      · exact hfresh j (by simp [hj]) hmem
      · exact (List.nodup_cons.mp hnodup).1 hj
    have hrec := ih (handle_answer cfg now i db params).2
      (List.nodup_cons.mp hnodup).2 hrest_fresh
    have hunfold : answer_many cfg now params (i :: rest) db
        = answer_many cfg now params rest (handle_answer cfg now i db params).2 := rfl
    constructor
    · rw [hunfold, hrec.1, hids]
      simp
    · rw [hunfold, hrec.2, hcount, List.length_cons]
      omega

/-- Claim C9: `handle_answer` performs no existence check — with a fresh
uuid4 `id` it always appends one new `CallLog` row (status `"answered"`,
`ended_at = None`), so `n` invocations with the same `call_uuid` and
pairwise-distinct fresh ids leave `n` more rows for that `call_uuid` than
before. -/
theorem handle_answer_duplicate_rows (cfg : Config) (now : Time)
    (params : List (String × String)) :
    (∀ db freshId, freshId ∉ logIds db →
      (handle_answer cfg now freshId db params).2.call_logs
        = db.call_logs ++ [answer_log now freshId params]) ∧
    (∀ db ids, ids.Nodup → (∀ i ∈ ids, i ∉ logIds db) →
      logIds (answer_many cfg now params ids db) = logIds db ++ ids ∧
      countLogsFor (answer_many cfg now params ids db) (sget params "uuid")
        = countLogsFor db (sget params "uuid") + ids.length) := by
  constructor
  · intro db freshId h
    rw [handle_answer_snd]
    exact db_save_call_log_fresh db _ h
  · intro db ids hnodup hfresh
    exact answer_many_ids_count cfg now params ids db hnodup hfresh

/-- Witness for C9: three answer webhooks for `call_uuid = "u1"` on an
empty store leave three rows for `"u1"`. -/
theorem handle_answer_duplicate_rows_witness :
    countLogsFor
      (answer_many cfg0 0 [("uuid", "u1")] ["id-a", "id-b", "id-c"] ⟨[], []⟩)
      "u1" = 3 := by
  have h := (handle_answer_duplicate_rows cfg0 0 [("uuid", "u1")]).2
    ⟨[], []⟩ ["id-a", "id-b", "id-c"] (by decide) (by decide)
  have h2 := h.2
  simpa [countLogsFor, sget] using h2

theorem dbInv_handle_answer (cfg : Config) (now : Time) (freshId : String)
    (db : DB) (params : List (String × String)) (h : dbInv db) :
    dbInv (handle_answer cfg now freshId db params).2 := by
  intro l hl
  rw [handle_answer_snd] at hl
  rcases List.mem_append.mp hl with hmem | hmem
  · exact h l (List.mem_filter.mp hmem).1
  · rcases List.mem_singleton.mp hmem with rfl
    rfl

theorem dbInv_update_call_log_status (db : DB) (u s : JVal) (ts : Time)
    (h : dbInv db) :
    dbInv (update_call_log_status db u s
      (if isTerminal s then some ts else none)).2 := by
  unfold update_call_log_status
  split
  · exact h
  · intro l hl
    rcases List.mem_map.mp hl with ⟨y, hy, rfl⟩
    by_cases hm : y.call_uuid = u
    · simp only [hm, if_true]
      show (if isTerminal s then some ts else none).isSome = isTerminal s
      cases hterm : isTerminal s <;> simp [hterm]
    · simp only [hm, if_false]
      exact h y hy

theorem dbInv_handle_event (now : Time) (iso : String → Option Time)
    (db : DB) (data : Payload) (h : dbInv db) :
    dbInv (handle_event now iso db data).1 := by
  simp only [handle_event]
  by_cases ht : (pget data "uuid" (.s "")).truthy = true
  · simp only [ht, if_true]
    exact dbInv_update_call_log_status db _ _ _ h
  · simp only [ht, if_false]
    exact h

theorem reachable_dbInv : ∀ db, ReachableDB db → dbInv db := by
  intro db h
  induction h with
  | refl =>
    intro l hl
    exact absurd hl (List.not_mem_nil l)
  | tail _ hstep ih =>
    cases hstep with
    | answer cfg now freshId params =>
      exact dbInv_handle_answer cfg now freshId _ params ih
    | event now iso data =>
      exact dbInv_handle_event now iso _ data ih

/-- What `handle_event` writes into every matching row when it fires. -/
theorem handle_event_updated_rows (now : Time) (iso : String → Option Time)
    (db : DB) (data : Payload) (l : CallLog)
    (hl : l ∈ (handle_event now iso db data).1.call_logs)
    (hkey : l.call_uuid = pget data "uuid" (.s ""))
    (ht : (pget data "uuid" (.s "")).truthy = true)
    (hex : ∃ l0 ∈ db.call_logs, l0.call_uuid = pget data "uuid" (.s "")) :
    l.status = pget data "status" (.s "") ∧
    l.ended_at = (if isTerminal (pget data "status" (.s ""))
      then some (parseTs iso (pget data "timestamp" (.s "")) now)
      else none) := by
  rcases hex with ⟨l0, hl0, hl0key⟩
  have hfind : (get_call_log db (pget data "uuid" (.s ""))).isSome := by
    unfold get_call_log
    rw [List.find?_isSome]
    exact ⟨l0, hl0, by simpa using hl0key⟩
  simp only [handle_event, ht, if_true] at hl
  unfold update_call_log_status at hl
  rcases hmatch : get_call_log db (pget data "uuid" (.s "")) with _ | x
  · rw [hmatch] at hfind
    exact absurd hfind (by simp)
  · rw [hmatch] at hl
    simp only at hl
    rcases List.mem_map.mp hl with ⟨y, _, hfy⟩
    by_cases hm : y.call_uuid = pget data "uuid" (.s "")
    · rw [if_pos hm] at hfy
      rw [← hfy]
      exact ⟨rfl, rfl⟩
    · rw [if_neg hm] at hfy
      rw [← hfy] at hkey
      exact absurd hkey hm

/-- Claim C4: every state reachable through `handle_answer` and
`handle_event` satisfies "`ended_at` is non-null iff the status is in the
terminal set"; `handle_answer` appends its new row with status
`"answered"` and `ended_at = None`; and when `handle_event` fires, every
matching row receives the incoming status together with `ended_at` equal
to the parsed event timestamp exactly when that status is terminal and
`None` otherwise. -/
theorem call_log_terminal_invariant :
    (∀ db, ReachableDB db → dbInv db) ∧
    (∀ cfg now freshId db params,
      (handle_answer cfg now freshId db params).2.call_logs.getLast?
        = some (answer_log now freshId params) ∧
      (answer_log now freshId params).status = .s "answered" ∧
      (answer_log now freshId params).ended_at = none) ∧
    (∀ now iso db data l,
      l ∈ (handle_event now iso db data).1.call_logs →
      l.call_uuid = pget data "uuid" (.s "") →
      (pget data "uuid" (.s "")).truthy = true →
      (∃ l0 ∈ db.call_logs, l0.call_uuid = pget data "uuid" (.s "")) →
      l.status = pget data "status" (.s "") ∧
      l.ended_at = (if isTerminal (pget data "status" (.s ""))
        then some (parseTs iso (pget data "timestamp" (.s "")) now)
        else none)) := by
  refine ⟨reachable_dbInv, ?_, ?_⟩
  · intro cfg now freshId db params
    refine ⟨?_, rfl, rfl⟩
    rw [handle_answer_snd]
    show (db.call_logs.filter _ ++ [answer_log now freshId params]).getLast?
      = some (answer_log now freshId params)
    exact List.getLast?_concat _
  · intro now iso db data l hl hkey ht hex
    exact handle_event_updated_rows now iso db data l hl hkey ht hex

/-- Witness for C4: a state reached by one answer webhook satisfies the
invariant, and a terminal event webhook on it stamps the matching row. -/
theorem call_log_terminal_invariant_witness :
    dbInv ⟨[], [sampleLog]⟩ ∧
    ({ sampleLog with
        status := JVal.s "completed", ended_at := some 42 } : CallLog).status
      = JVal.s "completed" := by
  constructor
  · have hstep : WebhookStep ⟨[], []⟩ ⟨[], [sampleLog]⟩ := by
      have h := WebhookStep.answer cfg0 100 "log-1"
        [("uuid", "u1"), ("from", "+819011112222"), ("to", "+813033334444")]
        ⟨[], []⟩
      have heq : (handle_answer cfg0 100 "log-1" ⟨[], []⟩
          [("uuid", "u1"), ("from", "+819011112222"),
            ("to", "+813033334444")]).2 = ⟨[], [sampleLog]⟩ := by decide
      rwa [heq] at h
    exact call_log_terminal_invariant.1 ⟨[], [sampleLog]⟩
      (Relation.ReflTransGen.single hstep)
  · exact (call_log_terminal_invariant.2.2 7 (fun _ => some 42)
      ⟨[], [sampleLog]⟩
      [("uuid", JVal.s "u1"), ("status", JVal.s "completed")]
      { sampleLog with status := JVal.s "completed", ended_at := some 7 }
      (by decide) (by decide) (by decide)
      ⟨sampleLog, by decide, by decide⟩).1

theorem exceptOk_exists {ε α : Type} (e : Except ε α) (h : exceptOk e = true) :
    ∃ a, e = .ok a := by
  cases e with
  | ok a => exact ⟨a, rfl⟩
  | error e => simp [exceptOk] at h

theorem pyIntOr0_spec (v : JVal) (h : pyIntSafe v = true) :
    (if v.truthy then pyInt v else Except.ok 0) = Except.ok (pyIntOr0 v) := by
  unfold pyIntSafe at h
  unfold pyIntOr0
  by_cases ht : v.truthy = true
  · rw [if_pos ht] at h ⊢
    cases he : pyInt v with
    | ok n => rfl
    | error e =>
      rw [he] at h
      simp [exceptOk] at h
  · rw [if_neg ht]

/-- Characterization of `rm_save_recording`: the download attempt (present
exactly when enabled and the URL is truthy) is followed by the
unconditional storage save of `rm_recording`. -/
theorem rm_save_recording_eq (env : RecEnv) (dir : String)
    (md : RecordingMetadata) (conv : Option JVal) (called : Option String)
    (ruid : Option JVal) (fs : Option Int) (fmt : String) (dlf : Bool)
    (db : DB) :
    rm_save_recording env dir md conv called ruid fs fmt dlf db
      = (db_save_recording db (rm_recording env dir md conv called ruid fs fmt dlf),
        (if dlf && md.recording_url.truthy then [Event.downloadAttempt md.id]
          else []) ++
        [Event.saveRecording (rm_recording env dir md conv called ruid fs fmt dlf)]) := by
  unfold rm_save_recording download_recording rm_recording
  by_cases h : (dlf && md.recording_url.truthy) = true
  · have hpair := h
    rw [Bool.and_eq_true] at hpair
    have hdlf : dlf = true := hpair.1
    have hu : md.recording_url.truthy = true := hpair.2
    by_cases hok : env.downloadOk = true
    · simp [h, hdlf, hu, hok]
    · have hok2 : env.downloadOk = false := by
        cases henv : env.downloadOk
        · rfl
        · exact absurd henv hok
      simp [h, hdlf, hu, hok2]
  · have h2 : (dlf && md.recording_url.truthy) = false := by
      cases hb : (dlf && md.recording_url.truthy)
      · rfl
      · exact absurd hb h
    simp [h2]

theorem handle_recording_eq_body (env : RecEnv) (mg : Bool) (dir : String)
    (db : DB) (data : Payload)
    (h1 : pyIntSafe (pget data "duration" (.i 0)) = true)
    (h2 : pyIntSafe (pget data "size" (.i 0)) = true) :
    handle_recording env mg dir db data
      = .ok (handle_recording_body env mg dir db data
          (pyIntOr0 (pget data "duration" (.i 0)))
          (pyIntOr0 (pget data "size" (.i 0)))) := by
  have hdur := pyIntOr0_spec _ h1
  have hfs := pyIntOr0_spec _ h2
  simp only [handle_recording, hdur, hfs]
  rfl

theorem get_call_log_db_save_recording (db : DB) (r : Recording) (u : JVal) :
    get_call_log (db_save_recording db r) u = get_call_log db u := rfl

theorem any_isSpawn_ifdl (b : Bool) (rid : String) (r : Recording) :
    (((if b then [Event.downloadAttempt rid] else [])
      ++ [Event.saveRecording r]).any isSpawn) = false := by
  cases b <;> simp [isSpawn]

theorem append_mp3_ne_empty (a : String) : a ++ ".mp3" ≠ "" := by
  intro h
  have h2 := congrArg String.length h
  rw [String.length_append] at h2
  have h3 : (".mp3" : String).length = 4 := rfl
  have h4 : ("" : String).length = 0 := rfl
  rw [h3, h4] at h2
  omega

/-- Claim C2 counterexample: on a concrete invocation with a truthy URL,
the download attempt strictly precedes the storage save, so the metadata is
not persisted before the download is attempted. -/
theorem rm_save_recording_save_first_counterexample :
    savedBeforeDownload
      (rm_save_recording env0 "recordings" md0 (some (JVal.s "c1")) none
        (some (JVal.s "r1")) (some 512) "mp3" true ⟨[], []⟩).2 = false := by
  decide

/-- Claim C2 (amended): `RecordingManager.save_recording` always persists
the converted `Recording` exactly once, and its durability does not depend
on the download outcome — but the audio-download attempt, performed exactly
when downloads are enabled and the URL is truthy, happens *before* the
storage save, not after. -/
theorem rm_save_recording_download_first (env : RecEnv) (dir : String)
    (md : RecordingMetadata) (conv : Option JVal) (called : Option String)
    (ruid : Option JVal) (fs : Option Int) (fmt : String) (dlf : Bool)
    (db : DB) :
    (rm_save_recording env dir md conv called ruid fs fmt dlf db).1
      = db_save_recording db (rm_recording env dir md conv called ruid fs fmt dlf) ∧
    (rm_save_recording env dir md conv called ruid fs fmt dlf db).2
      = (if dlf && md.recording_url.truthy then [Event.downloadAttempt md.id]
          else [])
        ++ [Event.saveRecording (rm_recording env dir md conv called ruid fs fmt dlf)] ∧
    ((dlf && md.recording_url.truthy) = true →
      savedBeforeDownload
        (rm_save_recording env dir md conv called ruid fs fmt dlf db).2 = false) := by
  have he := rm_save_recording_eq env dir md conv called ruid fs fmt dlf db
  refine ⟨by rw [he], by rw [he], ?_⟩
  intro h
  rw [he]
  rw [if_pos h]
  rfl

/-- Witness for C2 at a concrete invocation with downloads enabled. -/
theorem rm_save_recording_download_first_witness :
    savedBeforeDownload
      (rm_save_recording env0 "recs" md0 none none none none "wav" true
        ⟨[], []⟩).2 = false :=
  (rm_save_recording_download_first env0 "recs" md0 none none none none "wav"
    true ⟨[], []⟩).2.2 (by decide)

/-- Claim C1 counterexample: a JSON-object payload whose `duration` is the
truthy non-numeric string "abc" makes `handle_recording` raise ValueError
(from `int(duration)`), which the endpoint re-raises — answered as HTTP
500, not 200. -/
theorem recording_webhook_error_counterexample :
    handle_recording env0 false "recordings" ⟨[], []⟩
      [("conversation_uuid", JVal.s "c1"), ("duration", JVal.s "abc")]
      = .error (.valueError "invalid literal for int() with base 10") ∧
    recording_webhook env0 false "recordings" ⟨[], []⟩
      (some [("conversation_uuid", JVal.s "c1"), ("duration", JVal.s "abc")])
      = (500, ⟨[], []⟩) := by
  refine ⟨by decide, by decide⟩

/-- Claim C1 (amended): `handle_recording` returns normally — and the
endpoint acknowledges 200 — for every JSON-object payload whose `duration`
and `size` fields survive Python `int()` (absent, falsy, or convertible);
a truthy non-convertible value raises and reaches the webhook boundary as
HTTP 500, since `handle_recording` contains no exception handler and
`recording_webhook` re-raises everything into the generic 500 handler. -/
theorem recording_webhook_always_ok (env : RecEnv) (mg : Bool) (dir : String)
    (db : DB) (data : Payload)
    (h1 : pyIntSafe (pget data "duration" (.i 0)) = true)
    (h2 : pyIntSafe (pget data "size" (.i 0)) = true) :
    exceptOk (handle_recording env mg dir db data) = true ∧
    (recording_webhook env mg dir db (some data)).1 = 200 := by
  have h := handle_recording_eq_body env mg dir db data h1 h2
  constructor
  · rw [h]
    rfl
  · simp only [recording_webhook, h]

/-- Witness for C1 at a well-formed payload. -/
theorem recording_webhook_always_ok_witness :
    exceptOk (handle_recording env0 false "recordings" ⟨[], []⟩
      [("conversation_uuid", JVal.s "c1"), ("duration", JVal.i 42),
        ("size", JVal.i 9)]) = true ∧
    (recording_webhook env0 false "recordings" ⟨[], []⟩
      (some [("conversation_uuid", JVal.s "c1"), ("duration", JVal.i 42),
        ("size", JVal.i 9)])).1 = 200 :=
  recording_webhook_always_ok env0 false "recordings" ⟨[], []⟩
    [("conversation_uuid", JVal.s "c1"), ("duration", JVal.i 42),
      ("size", JVal.i 9)] (by decide) (by decide)

/-- Claim C5 counterexample: with the download failing (`downloadOk` off,
and the persisted row's `local_file_path` indeed `None`), enrichment
enabled and a resolvable caller, a `spawnEnrichment` still happens — the
handler never consults the download outcome, it only checks the
unconditionally-constructed path string. -/
theorem enrichment_spawned_after_failed_download_counterexample :
    env_dlfail.downloadOk = false ∧
    (match handle_recording env_dlfail true "recordings" db5 payload5 with
      | .ok out => out.2.any isSpawn
      | .error _ => false) = true ∧
    (match handle_recording env_dlfail true "recordings" db5 payload5 with
      | .ok out => (savedRecs out.2).map Recording.local_file_path
      | .error _ => []) = [none] := by
  refine ⟨rfl, by decide, by decide⟩

/-- Claim C5 (amended): the enrichment task is spawned exactly when
enrichment is enabled and a caller number resolves from the stored call
log; the "local file path exists" condition is vacuous, since the path is
the unconditionally built string `recordings_dir + "/" + id + ".mp3"` —
always truthy — and the download outcome is never consulted. -/
theorem handle_recording_enrichment_condition (env : RecEnv) (mg : Bool)
    (dir : String) (db : DB) (data : Payload)
    (h1 : pyIntSafe (pget data "duration" (.i 0)) = true)
    (h2 : pyIntSafe (pget data "size" (.i 0)) = true) :
    handle_recording env mg dir db data
      = .ok (handle_recording_body env mg dir db data
          (pyIntOr0 (pget data "duration" (.i 0)))
          (pyIntOr0 (pget data "size" (.i 0)))) ∧
    ((handle_recording_body env mg dir db data
        (pyIntOr0 (pget data "duration" (.i 0)))
        (pyIntOr0 (pget data "size" (.i 0)))).2.any isSpawn = true ↔
      mg = true ∧
      (match get_call_log db (pget data "conversation_uuid" (.s "")) with
        | some l => l.caller_number
        | none => "") ≠ "") := by
  refine ⟨handle_recording_eq_body env mg dir db data h1 h2, ?_⟩
  simp only [handle_recording_body]
  rw [rm_save_recording_eq]
  simp only [get_call_log_db_save_recording]
  rw [List.any_append, any_isSpawn_ifdl]
  simp only [Bool.false_or]
  by_cases hmg : mg = true
  · subst hmg
    simp only [if_true]
    have hpath : dir ++ "/" ++ env.freshMetaId ++ ".mp3" ≠ "" :=
      append_mp3_ne_empty (dir ++ "/" ++ env.freshMetaId)
    have key : ∀ c : String,
        ((if c ≠ "" && (dir ++ "/" ++ env.freshMetaId ++ ".mp3") ≠ "" then
            [Event.spawnEnrichment (dir ++ "/" ++ env.freshMetaId ++ ".mp3")
              c env.freshMetaId]
          else []).any isSpawn = true) ↔ (True ∧ c ≠ "") := by
      intro c
      by_cases hc : c = ""
      · subst hc
        simp [isSpawn]
      · simp [isSpawn, hc, hpath]
    exact key _
  · have hmg2 : mg = false := by
      cases hb : mg
      · rfl
      · exact absurd hb hmg
    subst hmg2
    simp

/-- Witness for C5: enrichment enabled, caller resolvable, download failed
— the spawn condition still evaluates the same way. -/
theorem handle_recording_enrichment_condition_witness :
    handle_recording env_dlfail true "recordings" db5 payload5
      = .ok (handle_recording_body env_dlfail true "recordings" db5 payload5
          (pyIntOr0 (pget payload5 "duration" (.i 0)))
          (pyIntOr0 (pget payload5 "size" (.i 0)))) ∧
    ((handle_recording_body env_dlfail true "recordings" db5 payload5
        (pyIntOr0 (pget payload5 "duration" (.i 0)))
        (pyIntOr0 (pget payload5 "size" (.i 0)))).2.any isSpawn = true ↔
      true = true ∧
      (match get_call_log db5 (pget payload5 "conversation_uuid" (.s "")) with
        | some l => l.caller_number
        | none => "") ≠ "") :=
  handle_recording_enrichment_condition env_dlfail true "recordings" db5
    payload5 (by decide) (by decide)

theorem savedRecs_shape (b1 : Bool) (rid : String) (r : Recording)
    (tail : List Event) (htail : savedRecs tail = []) :
    savedRecs (((if b1 then [Event.downloadAttempt rid] else [])
      ++ [Event.saveRecording r]) ++ tail) = [r] := by
  unfold savedRecs at htail ⊢
  rw [List.filterMap_append, List.filterMap_append, htail]
  cases b1 <;> simp

theorem savedRecs_enrichment (mg : Bool) (path c rid : String) (cond : Bool) :
    savedRecs (if mg then
      (if cond then [Event.spawnEnrichment path c rid] else []) else []) = [] := by
  cases mg <;> cases cond <;> simp [savedRecs]

theorem savedRecs_body (env : RecEnv) (mg : Bool) (dir : String) (db : DB)
    (data : Payload) (a b : Int) :
    savedRecs (handle_recording_body env mg dir db data a b).2
      = [rm_recording env dir
          { id := env.freshMetaId
            call_uuid := pget data "conversation_uuid" (.s "")
            caller_number := ""
            recording_url := pget data "recording_url" (.s "")
            duration := a
            timestamp := parseTs env.isoParse (pget data "start_time" (.s ""))
              env.now
            status := "completed"
            local_file_path := none }
          (some (pget data "conversation_uuid" (.s ""))) none
          (some (pget data "recording_uuid" (.s ""))) (some b) "mp3" true] := by
  simp only [handle_recording_body]
  rw [rm_save_recording_eq]
  rw [savedRecs_shape]
  exact savedRecs_enrichment _ _ _ _ _

/-- Claim C10: a recording-webhook payload with a missing or empty
`conversation_uuid` (respectively `recording_uuid`) is persisted with
`call_uuid` equal to the empty string, while the stored `conversation_uuid`
(respectively `recording_uuid`) field receives the fresh uuid4 — not the
empty string — because `save_recording` substitutes `uuid.uuid4()` for any
falsy value. -/
theorem handle_recording_blank_ids (env : RecEnv) (mg : Bool) (dir : String)
    (db : DB) (data : Payload)
    (h1 : pyIntSafe (pget data "duration" (.i 0)) = true)
    (h2 : pyIntSafe (pget data "size" (.i 0)) = true)
    (hconv : pget data "conversation_uuid" (.s "") = .s "")
    (hrec : pget data "recording_uuid" (.s "") = .s "") :
    handle_recording env mg dir db data
      = .ok (handle_recording_body env mg dir db data
          (pyIntOr0 (pget data "duration" (.i 0)))
          (pyIntOr0 (pget data "size" (.i 0)))) ∧
    (savedRecs (handle_recording_body env mg dir db data
        (pyIntOr0 (pget data "duration" (.i 0)))
        (pyIntOr0 (pget data "size" (.i 0)))).2).map Recording.call_uuid
      = [JVal.s ""] ∧
    (savedRecs (handle_recording_body env mg dir db data
        (pyIntOr0 (pget data "duration" (.i 0)))
        (pyIntOr0 (pget data "size" (.i 0)))).2).map Recording.conversation_uuid
      = [JVal.s env.freshConvUuid] ∧
    (savedRecs (handle_recording_body env mg dir db data
        (pyIntOr0 (pget data "duration" (.i 0)))
        (pyIntOr0 (pget data "size" (.i 0)))).2).map Recording.recording_uuid
      = [JVal.s env.freshRecUuid] ∧
    (env.freshConvUuid ≠ "" →
      (savedRecs (handle_recording_body env mg dir db data
          (pyIntOr0 (pget data "duration" (.i 0)))
          (pyIntOr0 (pget data "size" (.i 0)))).2).map Recording.conversation_uuid
        ≠ [JVal.s ""]) := by
  refine ⟨handle_recording_eq_body env mg dir db data h1 h2, ?_, ?_, ?_, ?_⟩
  · rw [savedRecs_body]
    simp [rm_recording, hconv]
  · rw [savedRecs_body]
    simp [rm_recording, hconv, JVal.truthy]
  · rw [savedRecs_body]
    simp [rm_recording, hrec, JVal.truthy]
  · intro hne
    rw [savedRecs_body]
    simp [rm_recording, hconv, JVal.truthy, hne]

/-- Witness for C10: a payload carrying only `duration`, so both uuids are
missing; the stored conversation and recording uuids are the fresh draws. -/
theorem handle_recording_blank_ids_witness :
    handle_recording env0 false "recordings" ⟨[], []⟩ payload10
      = .ok (handle_recording_body env0 false "recordings" ⟨[], []⟩ payload10
          (pyIntOr0 (pget payload10 "duration" (.i 0)))
          (pyIntOr0 (pget payload10 "size" (.i 0)))) ∧
    (savedRecs (handle_recording_body env0 false "recordings" ⟨[], []⟩ payload10
        (pyIntOr0 (pget payload10 "duration" (.i 0)))
        (pyIntOr0 (pget payload10 "size" (.i 0)))).2).map Recording.call_uuid
      = [JVal.s ""] ∧
    (savedRecs (handle_recording_body env0 false "recordings" ⟨[], []⟩ payload10
        (pyIntOr0 (pget payload10 "duration" (.i 0)))
        (pyIntOr0 (pget payload10 "size" (.i 0)))).2).map Recording.conversation_uuid
      = [JVal.s env0.freshConvUuid] ∧
    (savedRecs (handle_recording_body env0 false "recordings" ⟨[], []⟩ payload10
        (pyIntOr0 (pget payload10 "duration" (.i 0)))
        (pyIntOr0 (pget payload10 "size" (.i 0)))).2).map Recording.recording_uuid
      = [JVal.s env0.freshRecUuid] ∧
    (env0.freshConvUuid ≠ "" →
      (savedRecs (handle_recording_body env0 false "recordings" ⟨[], []⟩ payload10
          (pyIntOr0 (pget payload10 "duration" (.i 0)))
          (pyIntOr0 (pget payload10 "size" (.i 0)))).2).map Recording.conversation_uuid
        ≠ [JVal.s ""]) :=
  handle_recording_blank_ids env0 false "recordings" ⟨[], []⟩ payload10
    (by decide) (by decide) (by decide) (by decide)
